import Mathlib

/-!
Verification of the xESMF frontend (`xesmf/frontend.py`): a shallow embedding
of the regridding orchestration layer — coordinate-name resolution, mesh
normalisation, weight-file lifecycle, default weight-file naming, and the
numpy / labeled-array regridding paths — together with theorems settling the
specification's claims about it.

Array values are modelled as integers (the claims are about shapes, names and
metadata, never about floating-point arithmetic).
-/

namespace XESMF

/-- A multidimensional numeric array: a shape together with the row-major
flattened data. -/
structure NDArray where
  shape : List Nat
  data : List Int
  deriving Repr, DecidableEq

/-- A grid-description container (xarray `Dataset` or plain dictionary):
named coordinate variables, each carrying optional native dimension names
(available for labeled datasets, absent for plain dictionaries) and the
raw array. -/
structure GridVar where
  dims : Option (List String)
  arr : NDArray
  deriving Repr, DecidableEq

/-- `GridDescription`: lookup-by-name collection of coordinate variables. -/
structure GridDescription where
  vars : List (String × GridVar)
  deriving Repr, DecidableEq

/-- Membership test, embedding Python's `name in ds.variables`. -/
def GridDescription.hasVar (ds : GridDescription) (name : String) : Bool :=
  (ds.vars.map Prod.fst).contains name

/-- Lookup a variable by name. -/
def GridDescription.getVar (ds : GridDescription) (name : String) : Option GridVar :=
  (ds.vars.find? (fun p => p.fst = name)).map Prod.snd

/-- Embedding of `frontend.get_latlon_name(ds, boundary)`.

The source checks the COARDS keys first (`lat` / `lat_b`), then the CF 1.6
keys (`latitude` / `latitude_b`); when neither convention's key is present it
prints the compliance diagnostic and then fails (the names it would return
are left unbound).  Fallible code is embedded as `Except`: the failure branch
carries the diagnostic message. -/
def get_latlon_name (ds : GridDescription) (boundary : Bool) :
    Except String (String × String) :=
  if boundary then
    if ds.hasVar "lat_b" then
      Except.ok ("lat_b", "lon_b")
    else if ds.hasVar "latitude_b" then
      Except.ok ("latitude_b", "longitude_b")
    else
      Except.error "Must have coordinates compliant with NETCDF COARDS or CF conventions"
  else
    if ds.hasVar "lat" then
      Except.ok ("lat", "lon")
    else if ds.hasVar "latitude" then
      Except.ok ("latitude", "longitude")
    else
      Except.error "Must have coordinates compliant with NETCDF COARDS or CF conventions"

/-- A raw coordinate array handed to the mesh normaliser: either a 1-D axis
vector or a full 2-D field (list of rows). -/
inductive CoordArray where
  | oneD (v : List Int) : CoordArray
  | twoD (m : List (List Int)) : CoordArray
  deriving Repr, DecidableEq

/-- Shape of a 2-D field (rows, columns of first row), as numpy reports it
for a rectangular array. -/
def shape2 (m : List (List Int)) : Nat × Nat :=
  (m.length, ((m.head?).map List.length).getD 0)

/-- Embedding of `np.meshgrid(lon, lat)`: returns `(lon2d, lat2d)` of shape
`(lat.length, lon.length)` with `lon2d[i][j] = lon[j]` and
`lat2d[i][j] = lat[i]`. -/
def meshgrid (lon lat : List Int) : List (List Int) × List (List Int) :=
  (lat.map (fun _ => lon), lat.map (fun la => lon.map (fun _ => la)))

/-- Embedding of `frontend.as_2d_mesh(lon, lat)`: pass 2-D pairs through
after a shape check, expand 1-D pairs via `meshgrid`, reject mixed ranks. -/
def as_2d_mesh (lon lat : CoordArray) :
    Except String (List (List Int) × List (List Int)) :=
  match lon, lat with
  | CoordArray.twoD lo, CoordArray.twoD la =>
      if shape2 lo = shape2 la then Except.ok (lo, la)
      else Except.error "lon and lat should have same shape"
  | CoordArray.oneD lo, CoordArray.oneD la =>
      Except.ok (meshgrid lo la)
  | _, _ => Except.error "lon and lat should be both 1D or 2D"

/-- Embedding of the `method == 'conservative'` switch at the top of
`Regridder.__init__`: the conservative method forces the recorded
periodicity to `false` regardless of the caller-supplied value. -/
def record_periodic (method : String) (periodic : Bool) : Bool :=
  if method = "conservative" then false else periodic

/-- Embedding of the companion switch: conservative regridding needs cell
boundary information. -/
def record_need_bounds (method : String) : Bool :=
  method = "conservative"

/-- Embedding of `Regridder._get_default_filename`, evaluated on the recorded
grid shapes and the recorded (possibly forced) periodicity. -/
def get_default_filename (method : String)
    (ny_in nx_in ny_out nx_out : Nat) (periodic : Bool) : String :=
  let filename := method ++ "_" ++ toString ny_in ++ "x" ++ toString nx_in ++
    "_" ++ toString ny_out ++ "x" ++ toString nx_out
  if periodic then filename ++ "_peri.nc" else filename ++ ".nc"

/-- Observable effects of `Regridder._write_weight_file`: removing the
pre-existing artifact, and invoking the external weight-generation
collaborator (`esmf_regrid_build`). -/
inductive WeightFileEffect where
  | removeFile : WeightFileEffect
  | buildWeights : WeightFileEffect
  deriving Repr, DecidableEq

/-- Embedding of `Regridder._write_weight_file` as the sequence of effects it
performs, given whether the artifact already exists on disk and the value of
`reuse_weights`: a cache hit returns at once; otherwise a pre-existing file
is removed and the collaborator is invoked; a fresh build just invokes the
collaborator.  (The informational prints are advisory only.) -/
def write_weight_file (fileExists reuse_weights : Bool) : List WeightFileEffect :=
  if fileExists then
    if reuse_weights then []
    else [WeightFileEffect.removeFile, WeightFileEffect.buildWeights]
  else [WeightFileEffect.buildWeights]

/-- Dot product of an operator row with a flattened field slice. -/
def dotInt (row v : List Int) : Int :=
  ((row.zip v).map (fun p => p.fst * p.snd)).sum

/-- The in-memory sparse operator: a dense row list standing for the sparse
matrix (one row per destination cell, one column per source cell). -/
def matVec (A : List (List Int)) (v : List Int) : List Int :=
  A.map (fun row => dotInt row v)

/-- Leading ("extra") dimensions of a shape: everything but the trailing two. -/
def leadDims (shape : List Nat) : List Nat :=
  shape.take (shape.length - 2)

/-- Trailing two dimensions of a shape, as numpy's `shape[-2:]`. -/
def trailTwo (shape : List Nat) : List Nat :=
  shape.drop (shape.length - 2)

/-- Modelled from the spec: `apply_weights` of the weight-file codec
collaborator (module `xesmf/smm.py`, not under `src/`).  Per the spec's codec
contract, it applies the sparse operator to each trailing-two-axis slice of
the flattened input and returns an array whose trailing two axes are
`(ny_out, nx_out)` and whose leading axes are unchanged in shape and order. -/
def apply_weights (A : List (List Int)) (indata : NDArray)
    (ny_out nx_out : Nat) : NDArray :=
  let lead := leadDims indata.shape
  let n_in := (trailTwo indata.shape).prod
  let nSlices := lead.prod
  { shape := lead ++ [ny_out, nx_out]
  , data := ((List.range nSlices).map
      (fun k => matVec A ((indata.data.drop (k * n_in)).take n_in))).flatten }

/-- The xESMF `Regridder` object state recorded at construction: method,
(possibly forced) periodicity, `reuse_weights`, the input/output grid shapes,
the loaded sparse operator, the resolved destination coordinate names and
dimension names, the destination coordinate arrays, and the weight filename. -/
structure Regridder where
  method : String
  periodic : Bool
  reuse_weights : Bool
  ny_in : Nat
  nx_in : Nat
  ny_out : Nat
  nx_out : Nat
  A : List (List Int)
  lat_name_out : String
  lon_name_out : String
  lon_dim : List String
  lat_dim : List String
  horiz_dims : List String
  lon_out_arr : NDArray
  lat_out_arr : NDArray
  filename : String
  deriving Repr

/-- The shape-mismatch message of `Regridder.regrid_numpy`'s assertion,
reporting both the offending shape and the regridder's expected shape. -/
def shape_err_msg (got expected : List Nat) : String :=
  "The horizontal shape of input data is " ++ toString got ++
    ", different from that of" ++ "the regridder " ++ toString expected ++ "!"

/-- Embedding of `Regridder.regrid_numpy`, generalised over the codec's apply
primitive: validate that the trailing two dimensions equal
`(ny_in, nx_in)`, then (and only then) delegate to the codec. -/
def Regridder.regrid_numpy_with (R : Regridder)
    (applyFn : List (List Int) → NDArray → Nat → Nat → NDArray)
    (indata : NDArray) : Except String NDArray :=
  let shape_horiz := trailTwo indata.shape
  if shape_horiz = [R.ny_in, R.nx_in] then
    Except.ok (applyFn R.A indata R.ny_out R.nx_out)
  else
    Except.error (shape_err_msg shape_horiz [R.ny_in, R.nx_in])

/-- Embedding of `Regridder.regrid_numpy`: the generalised form instantiated
with the weight-file codec's `apply_weights`. -/
def Regridder.regrid_numpy (R : Regridder) (indata : NDArray) :
    Except String NDArray :=
  R.regrid_numpy_with apply_weights indata

/-- A coordinate attached to a labeled array: its dimension names and values. -/
structure Coord where
  dims : List String
  arr : NDArray
  deriving Repr, DecidableEq

/-- A labeled array (xarray `DataArray`): optional name, dimension names,
numeric buffer, coordinates keyed by name, and string attributes. -/
structure DataArray where
  name : Option String
  dims : List String
  values : NDArray
  coords : List (String × Coord)
  attrs : List (String × String)
  deriving Repr, DecidableEq

/-- Key-set insert/overwrite for an association list (xarray's
`obj.coords[k] = v` / `obj.attrs[k] = v`): replace the entry if the key is
present, append it otherwise. -/
def setAssoc {α : Type} : List (String × α) → String → α → List (String × α)
  | [], k, v => [(k, v)]
  | p :: rest, k, v =>
      if p.fst = k then (k, v) :: rest else p :: setAssoc rest k v

/-- Key lookup in an association list. -/
def lookupAssoc {α : Type} : List (String × α) → String → Option α
  | [], _ => none
  | p :: rest, k => if p.fst = k then some p.snd else lookupAssoc rest k

/-- The `for dim in extra_dims: dr_out.coords[dim] = dr_in.coords[dim]` loop:
copies each leading dimension's coordinate from the input; a dimension with
no coordinate raises a `KeyError`. -/
def copyExtraCoords (src : List (String × Coord)) (dims : List String)
    (dst : List (String × Coord)) : Except String (List (String × Coord)) :=
  match dims with
  | [] => Except.ok dst
  | d :: rest =>
      match lookupAssoc src d with
      | some c => copyExtraCoords src rest (setAssoc dst d c)
      | none => Except.error ("KeyError: " ++ d)

/-- Embedding of `Regridder.regrid_dataarray`: regrid the numeric buffer,
rebuild a labeled array with dimensions `extra_dims ++ horiz_dims`, attach
the destination longitude/latitude coordinates under the destination
coordinate names, copy every leading dimension's coordinate from the input,
and tag the result with the method name under `regrid_method`. -/
def Regridder.regrid_dataarray (R : Regridder) (dr_in : DataArray) :
    Except String DataArray := do
  let outdata ← R.regrid_numpy dr_in.values
  let extra_dims := dr_in.dims.take (dr_in.dims.length - 2)
  let coords0 := setAssoc
    (setAssoc ([] : List (String × Coord)) R.lon_name_out ⟨R.lon_dim, R.lon_out_arr⟩)
    R.lat_name_out ⟨R.lat_dim, R.lat_out_arr⟩
  let coords ← copyExtraCoords dr_in.coords extra_dims coords0
  Except.ok
    { name := dr_in.name
    , dims := extra_dims ++ R.horiz_dims
    , values := outdata
    , coords := coords
    , attrs := setAssoc [] "regrid_method" R.method }

/-- A recorded dimension name as the source stores it: either a native
dimension-name tuple taken from the dataset (`ds[...].dims`) or a bare
coordinate-name string (the dictionary fallback). -/
inductive DimSpec where
  | tup (l : List String) : DimSpec
  | str (s : String) : DimSpec
  deriving Repr, DecidableEq

/-- The destination-grid facts the dimension-name resolution step of
`Regridder.__init__` consults: the rank of the longitude field, whether the
container exposes native dimension names (labeled dataset) or not (plain
dictionary, where `ds[name].dims` raises), the native names when available,
and the resolved coordinate names. -/
structure DestGridMeta where
  lon_ndim : Nat
  dims_available : Bool
  lon_native_dims : List String
  lat_native_dims : List String
  lon_name : String
  lat_name : String
  deriving Repr, DecidableEq

/-- Embedding of the destination dimension-name resolution in
`Regridder.__init__` (the `self._lon_out.ndim` case split).  Returns
`(lat_dim, lon_dim, horiz_dims)`; `none` when the longitude field is neither
1-D nor 2-D (the source then leaves `horiz_dims` undefined). -/
def resolve_horiz_dims (g : DestGridMeta) :
    Option (DimSpec × DimSpec × List DimSpec) :=
  if g.lon_ndim = 2 then
    if g.dims_available then
      some (DimSpec.tup g.lon_native_dims, DimSpec.tup g.lon_native_dims,
        g.lon_native_dims.map DimSpec.str)
    else
      some (DimSpec.tup ["y", "x"], DimSpec.tup ["y", "x"],
        [DimSpec.str "y", DimSpec.str "x"])
  else if g.lon_ndim = 1 then
    if g.dims_available then
      some (DimSpec.tup g.lat_native_dims, DimSpec.tup g.lon_native_dims,
        [DimSpec.tup g.lat_native_dims, DimSpec.tup g.lon_native_dims])
    else
      some (DimSpec.str g.lat_name, DimSpec.str g.lon_name,
        [DimSpec.str g.lat_name, DimSpec.str g.lon_name])
  else none

/-- The eight coordinate names `Regridder.__init__` records. -/
structure ResolvedNames where
  lat_name_in : Option String
  lon_name_in : Option String
  lat_b_name_in : Option String
  lon_b_name_in : Option String
  lat_name_out : Option String
  lon_name_out : Option String
  lat_b_name_out : Option String
  lon_b_name_out : Option String
  deriving Repr, DecidableEq

/-- One `if lat is None and lon is None: get_latlon_name(...) else: use given`
block of `Regridder.__init__`. -/
def resolve_name_pair (ds : GridDescription) (boundary : Bool)
    (lat lon : Option String) : Except String (Option String × Option String) :=
  match lat, lon with
  | none, none =>
      (get_latlon_name ds boundary).map (fun p => (some p.fst, some p.snd))
  | _, _ => Except.ok (lat, lon)

/-- The coordinate-name resolution stage of `Regridder.__init__` (lines
224–245 of `frontend.py`): centre names then boundary names for the input
grid, then the same for the output grid — the boundary resolutions run for
every method, with no `need_bounds` guard. -/
def regridder_resolve_names (ds_in ds_out : GridDescription)
    (lat_in lon_in lat_b_in lon_b_in
     lat_out lon_out lat_b_out lon_b_out : Option String) :
    Except String ResolvedNames := do
  let p1 ← resolve_name_pair ds_in false lat_in lon_in
  let p2 ← resolve_name_pair ds_in true lat_b_in lon_b_in
  let p3 ← resolve_name_pair ds_out false lat_out lon_out
  let p4 ← resolve_name_pair ds_out true lat_b_out lon_b_out
  Except.ok ⟨p1.fst, p1.snd, p2.fst, p2.snd, p3.fst, p3.snd, p4.fst, p4.snd⟩

/-- Embedding of the front of `Regridder.__init__`: record the method
switches, resolve the eight coordinate names, then hand over to the rest of
the construction (grid building, shape recording, weight generation —
abstracted as `rest`, since it calls the external collaborators).  A failure
in name resolution aborts construction before `rest` can run. -/
def regridder_init {α : Type} (ds_in ds_out : GridDescription)
    (method : String) (periodic : Bool)
    (lat_in lon_in lat_b_in lon_b_in
     lat_out lon_out lat_b_out lon_b_out : Option String)
    (rest : ResolvedNames → Bool → Bool → Except String α) :
    Except String α := do
  let need_bounds := record_need_bounds method
  let peri := record_periodic method periodic
  let names ← regridder_resolve_names ds_in ds_out
    lat_in lon_in lat_b_in lon_b_in lat_out lon_out lat_b_out lon_b_out
  rest names need_bounds peri

/-- A small concrete regridder used to evaluate the theorems: bilinear from
a (3, 4) source grid to a (2, 2) destination grid, with an all-ones
4-by-12 operator. -/
def sampleRegridder : Regridder :=
  { method := "bilinear"
  , periodic := false
  , reuse_weights := false
  , ny_in := 3
  , nx_in := 4
  , ny_out := 2
  , nx_out := 2
  , A := List.replicate 4 (List.replicate 12 1)
  , lat_name_out := "lat"
  , lon_name_out := "lon"
  , lon_dim := ["lon"]
  , lat_dim := ["lat"]
  , horiz_dims := ["lat", "lon"]
  , lon_out_arr := ⟨[2], [0, 90]⟩
  , lat_out_arr := ⟨[2], [10, 20]⟩
  , filename := "bilinear_3x4_2x2.nc" }

/-- A labeled input for the sample regridder: one leading dimension `time`
carrying a coordinate, over the (3, 4) source grid. -/
def sampleDataArray : DataArray :=
  { name := some "temp"
  , dims := ["time", "yy", "xx"]
  , values := ⟨[5, 3, 4], List.replicate 60 0⟩
  , coords := [("time", ⟨["time"], ⟨[5], [0, 1, 2, 3, 4]⟩⟩)]
  , attrs := [] }

/-- The same labeled input with no coordinate attached to its leading
dimension `time`. -/
def sampleBareDataArray : DataArray :=
  { name := some "temp"
  , dims := ["time", "yy", "xx"]
  , values := ⟨[5, 3, 4], List.replicate 60 0⟩
  , coords := []
  , attrs := [] }

/-! ## Helper lemmas -/

theorem lookupAssoc_setAssoc_same {α : Type} (l : List (String × α))
    (k : String) (v : α) : lookupAssoc (setAssoc l k v) k = some v := by
  induction l with
  | nil => simp [setAssoc, lookupAssoc]
  | cons p rest ih =>
      by_cases hp : p.fst = k
      · simp [setAssoc, hp, lookupAssoc]
      · simp [setAssoc, hp, lookupAssoc, ih]

theorem lookupAssoc_setAssoc_other {α : Type} (l : List (String × α))
    (k k' : String) (v : α) (hne : k' ≠ k) :
    lookupAssoc (setAssoc l k v) k' = lookupAssoc l k' := by
  induction l with
  | nil => simp [setAssoc, lookupAssoc, Ne.symm hne]
  | cons p rest ih =>
      by_cases hp : p.fst = k
      · simp [setAssoc, hp, lookupAssoc, Ne.symm hne]
      · simp [setAssoc, hp, lookupAssoc, ih]

theorem copyExtraCoords_ok (src : List (String × Coord)) (dims : List String)
    (dst : List (String × Coord))
    (h : ∀ d ∈ dims, (lookupAssoc src d).isSome) :
    ∃ cs, copyExtraCoords src dims dst = Except.ok cs ∧
      (∀ k, k ∉ dims → lookupAssoc cs k = lookupAssoc dst k) ∧
      (∀ d ∈ dims, lookupAssoc cs d = lookupAssoc src d) := by
  induction dims generalizing dst with
  | nil => exact ⟨dst, rfl, fun k _ => rfl, fun d hd => absurd hd (List.not_mem_nil d)⟩
  | cons d rest ih =>
      obtain ⟨c, hc⟩ := Option.isSome_iff_exists.mp (h d (List.mem_cons_self d rest))
      obtain ⟨cs, hcs, hout, hin⟩ :=
        ih (setAssoc dst d c) (fun x hx => h x (List.mem_cons_of_mem d hx))
      refine ⟨cs, ?_, ?_, ?_⟩
      · simp [copyExtraCoords, hc, hcs]
      · intro k hk
        have hkd : k ≠ d := fun h' => hk (h' ▸ List.mem_cons_self d rest)
        have hkr : k ∉ rest := fun h' => hk (List.mem_cons_of_mem d h')
        rw [hout k hkr, lookupAssoc_setAssoc_other dst d k c hkd]
      · intro x hx
        rcases List.mem_cons.mp hx with hxd | hxr
        · subst hxd
          by_cases hr : x ∈ rest
          · exact hin x hr
          · rw [hout x hr, lookupAssoc_setAssoc_same dst x c, hc]
        · exact hin x hxr

theorem trailTwo_append (lead : List Nat) (a b : Nat) :
    trailTwo (lead ++ [a, b]) = [a, b] := by
  simp [trailTwo]

theorem leadDims_append (lead : List Nat) (a b : Nat) :
    leadDims (lead ++ [a, b]) = lead := by
  simp [leadDims]

/-- Shared success lemma for `regrid_numpy`: on a matching input the shape
check passes, the codec runs, and the output shape swaps the trailing two
dimensions for the destination grid shape. -/
theorem regrid_numpy_ok (R : Regridder) (indata : NDArray) (lead : List Nat)
    (h : indata.shape = lead ++ [R.ny_in, R.nx_in]) :
    R.regrid_numpy indata =
      Except.ok (apply_weights R.A indata R.ny_out R.nx_out) ∧
    (apply_weights R.A indata R.ny_out R.nx_out).shape =
      lead ++ [R.ny_out, R.nx_out] := by
  constructor
  · have ht : trailTwo indata.shape = [R.ny_in, R.nx_in] := by
      rw [h]; exact trailTwo_append lead R.ny_in R.nx_in
    simp [Regridder.regrid_numpy, Regridder.regrid_numpy_with, ht]
  · have hl : leadDims indata.shape = lead := by
      rw [h]; exact leadDims_append lead R.ny_in R.nx_in
    simp [apply_weights, hl]

/-! ## Claims -/

/-- C3: during construction, if the weight artifact already exists and
`reuse_weights` is true, the weight-generation collaborator is never invoked
(the existing file is reused); if the artifact exists and `reuse_weights` is
false, the existing file is deleted and the weights are regenerated via the
collaborator. -/
theorem weight_lifecycle_reuse_and_overwrite :
    WeightFileEffect.buildWeights ∉ write_weight_file true true ∧
    write_weight_file true false =
      [WeightFileEffect.removeFile, WeightFileEffect.buildWeights] := by
  constructor
  · simp [write_weight_file]
  · rfl

/-- C4: for every caller-supplied periodic flag, the conservative method
records periodicity as false before the default filename is computed, so the
default weight-file name for the conservative method is always the
non-periodic one and never carries the `_peri` suffix. -/
theorem conservative_forces_nonperiodic (p : Bool)
    (ny_in nx_in ny_out nx_out : Nat) :
    record_periodic "conservative" p = false ∧
    get_default_filename "conservative" ny_in nx_in ny_out nx_out
        (record_periodic "conservative" p) =
      get_default_filename "conservative" ny_in nx_in ny_out nx_out false ∧
    get_default_filename "conservative" 400 600 300 400
        (record_periodic "conservative" true) =
      "conservative_400x600_300x400.nc" := by
  refine ⟨rfl, rfl, by decide⟩

/-- C8: the default weight-artifact filename is exactly
`{method}_{ny_in}x{nx_in}_{ny_out}x{nx_out}.nc`, with `_peri` inserted before
the `.nc` extension exactly when the recorded periodicity is true; in
particular bilinear, source (400, 600), destination (300, 400), non-periodic
gives exactly `bilinear_400x600_300x400.nc`. -/
theorem default_filename_format (method : String) (a b c d : Nat) :
    get_default_filename method a b c d false =
      (method ++ "_" ++ toString a ++ "x" ++ toString b ++ "_" ++
        toString c ++ "x" ++ toString d) ++ ".nc" ∧
    get_default_filename method a b c d true =
      (method ++ "_" ++ toString a ++ "x" ++ toString b ++ "_" ++
        toString c ++ "x" ++ toString d) ++ "_peri" ++ ".nc" ∧
    get_default_filename "bilinear" 400 600 300 400 false =
      "bilinear_400x600_300x400.nc" := by
  refine ⟨rfl, ?_, by decide⟩
  have hp : ("_peri" : String) ++ ".nc" = "_peri.nc" := by decide
  rw [String.append_assoc, hp]
  rfl

/-- C5: the coordinate locator resolves `(lat, lon)` whenever the `lat` key
is present (the COARDS `lat`/`lon` convention is checked first, even if
`latitude` is also present), resolves `(latitude, longitude)` when only the
CF convention's key is present, and fails with the convention diagnostic
when neither convention's key is present. -/
theorem get_latlon_name_resolution (ds : GridDescription) :
    (ds.hasVar "lat" = true →
      get_latlon_name ds false = Except.ok ("lat", "lon")) ∧
    (ds.hasVar "lat" = false → ds.hasVar "latitude" = true →
      get_latlon_name ds false = Except.ok ("latitude", "longitude")) ∧
    (ds.hasVar "lat" = false → ds.hasVar "latitude" = false →
      ∃ e, get_latlon_name ds false = Except.error e) := by
  refine ⟨?_, ?_, ?_⟩
  · intro h; simp [get_latlon_name, h]
  · intro h1 h2; simp [get_latlon_name, h1, h2]
  · intro h1 h2
    refine ⟨"Must have coordinates compliant with NETCDF COARDS or CF conventions", ?_⟩
    simp [get_latlon_name, h1, h2]

/-- Witness for C5 at concrete grid descriptions: a grid exposing both
conventions resolves to the COARDS pair, a CF-only grid resolves to the CF
pair, and a grid with neither fails. -/
theorem get_latlon_name_resolution_witness :
    get_latlon_name
      ⟨[("lat", ⟨none, ⟨[2], [0, 1]⟩⟩), ("lon", ⟨none, ⟨[3], [0, 1, 2]⟩⟩),
        ("latitude", ⟨none, ⟨[2], [0, 1]⟩⟩)]⟩ false =
      Except.ok ("lat", "lon") ∧
    get_latlon_name
      ⟨[("latitude", ⟨none, ⟨[2], [0, 1]⟩⟩),
        ("longitude", ⟨none, ⟨[3], [0, 1, 2]⟩⟩)]⟩ false =
      Except.ok ("latitude", "longitude") ∧
    ∃ e, get_latlon_name ⟨[("temp", ⟨none, ⟨[2], [0, 1]⟩⟩)]⟩ false =
      Except.error e :=
  ⟨(get_latlon_name_resolution _).1 (by decide),
   (get_latlon_name_resolution _).2.1 (by decide) (by decide),
   (get_latlon_name_resolution _).2.2 (by decide) (by decide)⟩

/-- C9: destination horizontal dimension names are resolved at construction
as follows — a 2-D destination longitude field contributes its native
dimension names to both recorded slots when available and the default
`("y", "x")` pair otherwise; a 1-D field contributes the respective native
1-D dimension names when available and the coordinate-name placeholders
otherwise; in each case the recorded pair is ordered (latitude-like row
dimension, longitude-like column dimension). -/
theorem resolve_horiz_dims_resolution (g : DestGridMeta) :
    (g.lon_ndim = 2 → g.dims_available = true →
      resolve_horiz_dims g = some (DimSpec.tup g.lon_native_dims,
        DimSpec.tup g.lon_native_dims, g.lon_native_dims.map DimSpec.str)) ∧
    (g.lon_ndim = 2 → g.dims_available = false →
      resolve_horiz_dims g = some (DimSpec.tup ["y", "x"],
        DimSpec.tup ["y", "x"], [DimSpec.str "y", DimSpec.str "x"])) ∧
    (g.lon_ndim = 1 → g.dims_available = true →
      resolve_horiz_dims g = some (DimSpec.tup g.lat_native_dims,
        DimSpec.tup g.lon_native_dims,
        [DimSpec.tup g.lat_native_dims, DimSpec.tup g.lon_native_dims])) ∧
    (g.lon_ndim = 1 → g.dims_available = false →
      resolve_horiz_dims g = some (DimSpec.str g.lat_name,
        DimSpec.str g.lon_name,
        [DimSpec.str g.lat_name, DimSpec.str g.lon_name])) ∧
    (∀ latd lond horiz, g.lon_ndim = 1 →
      resolve_horiz_dims g = some (latd, lond, horiz) → horiz = [latd, lond]) := by
  refine ⟨?_, ?_, ?_, ?_, ?_⟩
  · intro h1 h2; simp [resolve_horiz_dims, h1, h2]
  · intro h1 h2; simp [resolve_horiz_dims, h1, h2]
  · intro h1 h2; simp [resolve_horiz_dims, h1, h2]
  · intro h1 h2; simp [resolve_horiz_dims, h1, h2]
  · intro latd lond horiz h1 h2
    by_cases hav : g.dims_available
    · simp [resolve_horiz_dims, h1, hav] at h2
      obtain ⟨e1, e2, e3⟩ := h2
      rw [← e1, ← e2, ← e3]
    · simp [resolve_horiz_dims, h1, hav] at h2
      obtain ⟨e1, e2, e3⟩ := h2
      rw [← e1, ← e2, ← e3]

/-- Witness for C9 at four concrete destination-grid descriptions, one per
case of the resolution. -/
theorem resolve_horiz_dims_resolution_witness :
    resolve_horiz_dims ⟨2, true, ["yc", "xc"], ["yc", "xc"], "lon", "lat"⟩ =
      some (DimSpec.tup ["yc", "xc"], DimSpec.tup ["yc", "xc"],
        [DimSpec.str "yc", DimSpec.str "xc"]) ∧
    resolve_horiz_dims ⟨2, false, [], [], "lon", "lat"⟩ =
      some (DimSpec.tup ["y", "x"], DimSpec.tup ["y", "x"],
        [DimSpec.str "y", DimSpec.str "x"]) ∧
    resolve_horiz_dims ⟨1, true, ["lon"], ["lat"], "lon", "lat"⟩ =
      some (DimSpec.tup ["lat"], DimSpec.tup ["lon"],
        [DimSpec.tup ["lat"], DimSpec.tup ["lon"]]) ∧
    resolve_horiz_dims ⟨1, false, [], [], "longitude", "latitude"⟩ =
      some (DimSpec.str "latitude", DimSpec.str "longitude",
        [DimSpec.str "latitude", DimSpec.str "longitude"]) :=
  ⟨(resolve_horiz_dims_resolution _).1 rfl rfl,
   (resolve_horiz_dims_resolution _).2.1 rfl rfl,
   (resolve_horiz_dims_resolution _).2.2.1 rfl rfl,
   (resolve_horiz_dims_resolution _).2.2.2.1 rfl rfl⟩

/-- C6: for 1-D longitude and latitude vectors of lengths `nx` and `ny`, the
mesh normaliser produces two 2-D arrays of shape `(ny, nx)` such that every
row of the longitude mesh equals the longitude vector and every column of
the latitude mesh equals the latitude vector. -/
theorem as_2d_mesh_oneD (lon lat : List Int) :
    ∃ lon2 lat2,
      as_2d_mesh (CoordArray.oneD lon) (CoordArray.oneD lat) =
        Except.ok (lon2, lat2) ∧
      lon2.length = lat.length ∧
      (∀ row ∈ lon2, row = lon) ∧
      lat2.length = lat.length ∧
      (∀ row ∈ lat2, row.length = lon.length) ∧
      (∀ j, j < lon.length → lat2.map (fun r => r.getD j 0) = lat) := by
  refine ⟨lat.map (fun _ => lon), lat.map (fun la => lon.map (fun _ => la)),
    rfl, by simp, ?_, by simp, ?_, ?_⟩
  · intro row hrow
    obtain ⟨la, _, hval⟩ := List.mem_map.mp hrow
    exact hval.symm
  · intro row hrow
    obtain ⟨la, _, hval⟩ := List.mem_map.mp hrow
    rw [← hval]; simp
  · intro j hj
    rw [List.map_map]
    have : ∀ la : Int,
        ((fun r => List.getD r j 0) ∘ fun la => lon.map (fun _ => la)) la = la := by
      intro la
      simp [Function.comp, List.getD_eq_getElem?_getD, List.getElem?_map,
        List.getElem?_replicate, hj]
    calc lat.map ((fun r => List.getD r j 0) ∘ fun la => lon.map (fun _ => la))
        = lat.map id := List.map_congr_left (fun la _ => this la)
      _ = lat := List.map_id lat

/-- Witness for C6 at a concrete vector pair `lon = [10, 20, 30]`,
`lat = [1, 2]`. -/
theorem as_2d_mesh_oneD_witness :
    ∃ lon2 lat2,
      as_2d_mesh (CoordArray.oneD [10, 20, 30]) (CoordArray.oneD [1, 2]) =
        Except.ok (lon2, lat2) ∧
      lon2.length = ([1, 2] : List Int).length ∧
      (∀ row ∈ lon2, row = [10, 20, 30]) ∧
      lat2.length = ([1, 2] : List Int).length ∧
      (∀ row ∈ lat2, row.length = ([10, 20, 30] : List Int).length) ∧
      (∀ j, j < ([10, 20, 30] : List Int).length →
        lat2.map (fun r => r.getD j 0) = [1, 2]) :=
  as_2d_mesh_oneD [10, 20, 30] [1, 2]

/-- C1: for every input array whose trailing two dimensions equal the source
grid shape `(ny_in, nx_in)`, the regridder returns an array whose trailing
two dimensions equal the destination grid shape `(ny_out, nx_out)` and whose
leading dimensions are unchanged in count, order, and extent. -/
theorem regrid_numpy_preserves_leading_dims (R : Regridder) (indata : NDArray)
    (lead : List Nat) (h : indata.shape = lead ++ [R.ny_in, R.nx_in]) :
    ∃ out, R.regrid_numpy indata = Except.ok out ∧
      out.shape = lead ++ [R.ny_out, R.nx_out] :=
  ⟨apply_weights R.A indata R.ny_out R.nx_out,
    (regrid_numpy_ok R indata lead h).1, (regrid_numpy_ok R indata lead h).2⟩

/-- Witness for C1 at the claim's example: a (3, 4)-to-(2, 2) regridder
applied to an array of shape (5, 3, 4) yields an array of shape (5, 2, 2). -/
theorem regrid_numpy_preserves_leading_dims_witness :
    ∃ out, sampleRegridder.regrid_numpy ⟨[5, 3, 4], List.replicate 60 0⟩ =
        Except.ok out ∧
      out.shape = [5] ++ [2, 2] :=
  regrid_numpy_preserves_leading_dims sampleRegridder _ [5] rfl

/-- C2: for every input array whose trailing two dimensions differ from the
source grid shape, regridding fails with a shape-mismatch message reporting
both the offending shape and the expected shape, and the weight-file codec's
apply primitive is never invoked: the outcome is the same for every codec. -/
theorem regrid_numpy_shape_mismatch (R : Regridder) (indata : NDArray)
    (h : trailTwo indata.shape ≠ [R.ny_in, R.nx_in]) :
    (∃ a b c, R.regrid_numpy indata = Except.error
      (a ++ toString (trailTwo indata.shape) ++ b ++
        toString [R.ny_in, R.nx_in] ++ c)) ∧
    ∀ f g, R.regrid_numpy_with f indata = R.regrid_numpy_with g indata := by
  constructor
  · refine ⟨"The horizontal shape of input data is ",
      ", different from that of" ++ "the regridder ", "!", ?_⟩
    simp [Regridder.regrid_numpy, Regridder.regrid_numpy_with, h,
      shape_err_msg, String.append_assoc]
  · intro f g
    simp [Regridder.regrid_numpy_with, h]

/-- Witness for C2: the (3, 4)-to-(2, 2) regridder rejects an array of shape
(5, 3) with a message carrying both shapes, for every codec. -/
theorem regrid_numpy_shape_mismatch_witness :
    (∃ a b c, sampleRegridder.regrid_numpy ⟨[5, 3], List.replicate 15 0⟩ =
      Except.error (a ++ toString (trailTwo [5, 3]) ++ b ++
        toString [3, 4] ++ c)) ∧
    ∀ f g,
      sampleRegridder.regrid_numpy_with f ⟨[5, 3], List.replicate 15 0⟩ =
        sampleRegridder.regrid_numpy_with g ⟨[5, 3], List.replicate 15 0⟩ :=
  regrid_numpy_shape_mismatch sampleRegridder _ (by decide)

/-- C10: for every grid description lacking both boundary keys (`lat_b` and
`latitude_b`) and every method — including the non-conservative ones that do
not need bounds — constructing a regridder without explicit boundary-name
overrides fails: the constructor unconditionally resolves boundary
coordinate names, whose failure aborts construction no matter what the rest
of the construction would do. -/
theorem init_fails_without_boundary_keys (α : Type)
    (ds_in ds_out : GridDescription) (method : String) (periodic : Bool)
    (lat_in lon_in lat_out lon_out lat_b_out lon_b_out : Option String)
    (h1 : ds_in.hasVar "lat_b" = false)
    (h2 : ds_in.hasVar "latitude_b" = false)
    (rest : ResolvedNames → Bool → Bool → Except String α) :
    ∃ e, regridder_init ds_in ds_out method periodic
      lat_in lon_in none none lat_out lon_out lat_b_out lon_b_out rest =
      Except.error e := by
  have hb : resolve_name_pair ds_in true none none = Except.error
      "Must have coordinates compliant with NETCDF COARDS or CF conventions" := by
    simp [resolve_name_pair, get_latlon_name, h1, h2, Except.map]
  cases hp : resolve_name_pair ds_in false lat_in lon_in with
  | error e =>
      exact ⟨e, by simp [regridder_init, regridder_resolve_names, hp, bind, Except.bind]⟩
  | ok p =>
      refine ⟨"Must have coordinates compliant with NETCDF COARDS or CF conventions", ?_⟩
      simp [regridder_init, regridder_resolve_names, hp, hb, bind, Except.bind]

/-- Witness for C10: a pair of grids exposing only centre coordinates
(`lat`/`lon`) makes construction with the bilinear method fail, whatever the
rest of the construction would produce. -/
theorem init_fails_without_boundary_keys_witness :
    ∃ e, regridder_init
      ⟨[("lat", ⟨none, ⟨[2], [0, 1]⟩⟩), ("lon", ⟨none, ⟨[3], [0, 1, 2]⟩⟩)]⟩
      ⟨[("lat", ⟨none, ⟨[2], [0, 1]⟩⟩), ("lon", ⟨none, ⟨[3], [0, 1, 2]⟩⟩)]⟩
      "bilinear" false none none none none none none none none
      (fun _ _ _ => Except.ok (0 : Nat)) = Except.error e :=
  init_fails_without_boundary_keys Nat _ _ "bilinear" false
    none none none none none none (by decide) (by decide) _

/-- C7 counterexample: a labeled input whose leading dimension `time`
carries no coordinate makes the labeled-array path fail with a key error (the
coordinate-copy loop indexes `dr_in.coords[dim]` for every leading
dimension), so no output carrying the destination coordinates and the
`regrid_method` attribute is produced. -/
theorem regrid_dataarray_missing_coord_fails :
    sampleRegridder.regrid_dataarray sampleBareDataArray =
      Except.error ("KeyError: " ++ "time") ∧
    ¬∃ dr_out, sampleRegridder.regrid_dataarray sampleBareDataArray =
      Except.ok dr_out := by
  have h1 : sampleRegridder.regrid_dataarray sampleBareDataArray =
      Except.error ("KeyError: " ++ "time") := by rfl
  refine ⟨h1, ?_⟩
  rintro ⟨dr_out, hdr⟩
  rw [h1] at hdr
  exact Except.noConfusion hdr

/-- C7 (amended): for every labeled input array whose underlying buffer
matches the source grid and whose leading dimensions each carry a
coordinate, the labeled-array path copies every leading-dimension coordinate
to the output unchanged (same values, same associated dimension names),
attaches the destination longitude/latitude coordinate arrays under the
destination coordinate names whenever those names are not themselves leading
dimension names (the copy loop would otherwise overwrite them), and tags the
result with the method name in a `regrid_method` attribute. -/
theorem regrid_dataarray_metadata (R : Regridder) (dr_in : DataArray)
    (lead : List Nat)
    (hshape : dr_in.values.shape = lead ++ [R.ny_in, R.nx_in])
    (hcoords : ∀ d ∈ dr_in.dims.take (dr_in.dims.length - 2),
      (lookupAssoc dr_in.coords d).isSome) :
    ∃ dr_out, R.regrid_dataarray dr_in = Except.ok dr_out ∧
      dr_out.dims = dr_in.dims.take (dr_in.dims.length - 2) ++ R.horiz_dims ∧
      (∀ d ∈ dr_in.dims.take (dr_in.dims.length - 2),
        lookupAssoc dr_out.coords d = lookupAssoc dr_in.coords d) ∧
      (R.lat_name_out ∉ dr_in.dims.take (dr_in.dims.length - 2) →
        lookupAssoc dr_out.coords R.lat_name_out =
          some ⟨R.lat_dim, R.lat_out_arr⟩) ∧
      (R.lon_name_out ∉ dr_in.dims.take (dr_in.dims.length - 2) →
        R.lon_name_out ≠ R.lat_name_out →
        lookupAssoc dr_out.coords R.lon_name_out =
          some ⟨R.lon_dim, R.lon_out_arr⟩) ∧
      lookupAssoc dr_out.attrs "regrid_method" = some R.method := by
  have hok := (regrid_numpy_ok R dr_in.values lead hshape).1
  obtain ⟨cs, hcs, hout, hin⟩ := copyExtraCoords_ok dr_in.coords
    (dr_in.dims.take (dr_in.dims.length - 2))
    (setAssoc (setAssoc [] R.lon_name_out ⟨R.lon_dim, R.lon_out_arr⟩)
      R.lat_name_out ⟨R.lat_dim, R.lat_out_arr⟩) hcoords
  refine ⟨{ name := dr_in.name
          , dims := dr_in.dims.take (dr_in.dims.length - 2) ++ R.horiz_dims
          , values := apply_weights R.A dr_in.values R.ny_out R.nx_out
          , coords := cs
          , attrs := setAssoc [] "regrid_method" R.method }, ?_, rfl, hin,
      ?_, ?_, lookupAssoc_setAssoc_same _ _ _⟩
  · simp [Regridder.regrid_dataarray, hok, hcs, bind, Except.bind]
  · intro h
    rw [hout _ h]
    exact lookupAssoc_setAssoc_same _ _ _
  · intro h hne
    rw [hout _ h, lookupAssoc_setAssoc_other _ _ _ _ hne]
    exact lookupAssoc_setAssoc_same _ _ _

/-- Witness for the amended C7 at the sample input: the `time` coordinate is
copied unchanged, the destination `lat`/`lon` coordinates are attached, and
the result is tagged with the bilinear method. -/
theorem regrid_dataarray_metadata_witness :
    ∃ dr_out, sampleRegridder.regrid_dataarray sampleDataArray =
        Except.ok dr_out ∧
      dr_out.dims = sampleDataArray.dims.take (sampleDataArray.dims.length - 2)
        ++ sampleRegridder.horiz_dims ∧
      (∀ d ∈ sampleDataArray.dims.take (sampleDataArray.dims.length - 2),
        lookupAssoc dr_out.coords d = lookupAssoc sampleDataArray.coords d) ∧
      (sampleRegridder.lat_name_out ∉
          sampleDataArray.dims.take (sampleDataArray.dims.length - 2) →
        lookupAssoc dr_out.coords sampleRegridder.lat_name_out =
          some ⟨sampleRegridder.lat_dim, sampleRegridder.lat_out_arr⟩) ∧
      (sampleRegridder.lon_name_out ∉
          sampleDataArray.dims.take (sampleDataArray.dims.length - 2) →
        sampleRegridder.lon_name_out ≠ sampleRegridder.lat_name_out →
        lookupAssoc dr_out.coords sampleRegridder.lon_name_out =
          some ⟨sampleRegridder.lon_dim, sampleRegridder.lon_out_arr⟩) ∧
      lookupAssoc dr_out.attrs "regrid_method" = some sampleRegridder.method :=
  regrid_dataarray_metadata sampleRegridder sampleDataArray [5] rfl (by decide)

end XESMF
